import Mathlib

/-!
Verification of the label-generation core of the printer-tool repository.

The model below is a shallow embedding of `src/label_generator.py` and the
label-routing part of `src/main.py`.  Strings are modelled as `List Char`
(Python slicing is per character), Python `int()` truncation of the
nonnegative quantities appearing in the code is modelled by the rational
floor, and the side effects of a compositing call (encoder invocations,
draw/paste calls on the canvas, temporary files) are recorded explicitly in
the result structures.  Text measurement (`draw.textlength`) and the
fresh-temporary-file-name supply of the operating system are parameters
of the model, since the code treats both as external capabilities.
-/

namespace LabelGen

/-- Python `int()` applied to the nonnegative rationals appearing in the
label code; truncation toward zero coincides with the floor there. -/
def pyInt (q : ℚ) : ℤ := ⌊q⌋

/-- The text wrapper used by every label kind.  Mirrors the comprehension
`[s[i:i + k] for i in range(0, len(s), k)]` from `label_generator.py`
(lines 83, 109, 163, 189, 243, 293): `range(0, len(s), k)` enumerates the
`ceil (len s / k)` start offsets `i * k`, and the slice `s[i:i + k]` is
`(s.drop (i * k)).take k`.  A step of `0` is a `ValueError` in Python
(`range` rejects it); no call site uses it (the limits are 18, 20, 22, 32
and 5), and the model yields `[]` in that unreachable case. -/
def wrap (s : List Char) (k : ℕ) : List (List Char) :=
  (List.range ((s.length + k - 1) / k)).map fun i => (s.drop (i * k)).take k

/-- An invocation of one of the external code encoders, with the data string
it was asked to encode (`qrcode` at `generate_codes` lines 23-32, the
Code-128 `barcode` writer at lines 40-42). -/
inductive EncoderCall where
  | qr (data : List Char)
  | code128 (data : List Char)
  deriving DecidableEq

/-- Content of a raster file produced by an encoder and read back with
`Image.open`; `missing` models opening a path nothing was written to. -/
inductive Raster where
  | qrImg (data : List Char)
  | barcodeImg (data : List Char)
  | missing
  deriving DecidableEq

/-- One drawing call on the label canvas: `draw.text` (position, content,
font size; the fill is always black and is omitted as a constant) or
`Image.paste` of an encoder raster resized to `w × h` at integer `(x, y)`.
Text coordinates are rational because the source mixes `int` positions with
true-division results. -/
inductive DrawOp where
  | text (x y : ℚ) (content : List Char) (fontSize : ℕ)
  | paste (img : Raster) (x y : ℤ) (w h : ℕ)
  deriving DecidableEq

/-- The observable result of one compositing call: canvas metadata, the
encoder invocations made, the draw calls in program order, and the path
(temporary-file name) returned to the caller. -/
structure LabelOutput where
  widthPx : ℕ
  heightPx : ℕ
  mode : String
  background : String
  dpiTag : ℕ × ℕ
  encoderCalls : List EncoderCall
  draws : List DrawOp
  returnedPath : ℕ
  deriving DecidableEq

/-- Text measurement (`draw.textlength text font`): an external font
capability, a parameter of the model. -/
def Measure : Type := List Char → ℕ → ℚ

/-- Python truthiness of the optional `barcode_data` argument: `None` and
the empty string are falsy (`generate_codes` line 35). -/
def truthy : Option (List Char) → Bool
  | none => false
  | some s => !s.isEmpty

/-- Result of `generate_codes`: the temporary file names returned, the
encoder invocations made, and the file contents written. -/
structure GenCodesResult where
  qrFile : ℕ
  barcodeFile : Option ℕ
  calls : List EncoderCall
  fs : ℕ → Option Raster

/-- `generate_codes(qr_data, barcode_data)` (lines 17-44): always writes a
QR raster to a fresh temporary file `o 0`; when `barcode_data` is truthy it
also writes a Code-128 raster (without embedded text) to a second fresh
file `o 1`.  `o` is the fresh-name supply of the operating system. -/
def generate_codes (o : ℕ → ℕ) (qr_data : List Char)
    (barcode_data : Option (List Char)) : GenCodesResult :=
  let qr_file := o 0
  let fs1 : ℕ → Option Raster :=
    fun n => if n = qr_file then some (Raster.qrImg qr_data) else none
  if truthy barcode_data then
    let bc := barcode_data.getD []
    let barcode_file := o 1
    { qrFile := qr_file, barcodeFile := some barcode_file,
      calls := [EncoderCall.qr qr_data, EncoderCall.code128 bc],
      fs := fun n => if n = barcode_file then some (Raster.barcodeImg bc) else fs1 n }
  else
    { qrFile := qr_file, barcodeFile := none,
      calls := [EncoderCall.qr qr_data], fs := fs1 }

/-- `create_1x2_product_label` (lines 47-125): 2in x 1in product label at
203 dpi.  The sequence of draw calls mirrors the source: centered title,
QR pasted at the left, wrapped bin location under the QR (18 chars/line),
optional barcode with centered product code under it, wrapped description
(20 chars/line) anchored at the barcode column when a barcode exists and at
the QR column otherwise. -/
def create_1x2_product_label (m : Measure) (o : ℕ → ℕ)
    (qr_data : List Char) (barcode_data : Option (List Char))
    (description bin_location product_code title : List Char) : LabelOutput :=
  let dpi : ℕ := 203
  let label_width_px : ℕ := 2 * dpi
  let label_height_px : ℕ := 1 * dpi
  let g := generate_codes o qr_data barcode_data
  let font_title : ℕ := (pyInt ((0.1 : ℚ) * label_height_px)).toNat
  let title_x : ℚ := ((label_width_px : ℚ) - m title font_title) / 2
  let titleOp := DrawOp.text title_x ((pyInt ((label_height_px : ℚ) * 0.02) : ℤ) : ℚ)
    title font_title
  let qr_img := (g.fs g.qrFile).getD Raster.missing
  let qr_width : ℕ := (pyInt ((label_height_px : ℚ) * 0.5)).toNat
  let qr_x : ℤ := pyInt ((label_width_px : ℚ) * 0.05)
  let qr_y : ℤ := pyInt ((label_height_px : ℚ) * 0.15)
  let qrOp := DrawOp.paste qr_img qr_x qr_y qr_width qr_width
  let font_bin : ℕ := (pyInt ((0.08 : ℚ) * label_height_px)).toNat
  let max_bin_line_length : ℕ := 18
  let wrapped_bin_lines := wrap bin_location max_bin_line_length
  let bin_x : ℤ := qr_x
  let bin_y : ℤ := qr_y + qr_width + 2
  let binOps := wrapped_bin_lines.enum.map fun p =>
    DrawOp.text (bin_x : ℚ) ((bin_y : ℚ) + p.1 * ((font_bin : ℚ) + 2)) p.2 font_bin
  let barcode_width : ℕ := (pyInt ((label_width_px : ℚ) * 0.45)).toNat
  let barcode_height : ℕ := (pyInt ((label_height_px : ℚ) * 0.3)).toNat
  let barcode_x : ℤ := pyInt ((label_width_px : ℚ) * 0.55)
  let barcode_y : ℤ := pyInt ((label_height_px : ℚ) * 0.2)
  let font_barcode_text : ℕ := (pyInt ((0.08 : ℚ) * label_height_px)).toNat
  let barcodeOps : List DrawOp :=
    match g.barcodeFile with
    | some bf =>
      let barcode_img := (g.fs bf).getD Raster.missing
      let text_width := m product_code font_barcode_text
      let text_x : ℚ := (barcode_x : ℚ) + ((barcode_width : ℚ) - text_width) / 2
      let text_y : ℚ := (barcode_y : ℚ) + (barcode_height : ℚ) + 5
      [DrawOp.paste barcode_img barcode_x barcode_y barcode_width barcode_height,
       DrawOp.text text_x text_y product_code font_barcode_text]
    | none => []
  let font_desc : ℕ := (pyInt ((0.08 : ℚ) * label_height_px)).toNat
  let max_desc_line_length : ℕ := 20
  let wrapped_desc_lines := wrap description max_desc_line_length
  let desc_x : ℚ := match g.barcodeFile with
    | some _ => (barcode_x : ℚ)
    | none => (qr_x : ℚ)
  let desc_y : ℚ := (label_height_px : ℚ) * 0.625
  let descOps := wrapped_desc_lines.enum.map fun p =>
    DrawOp.text desc_x (desc_y + p.1 * ((font_desc : ℚ) + 2)) p.2 font_desc
  { widthPx := label_width_px, heightPx := label_height_px,
    mode := ("RGB" : String), background := ("white" : String),
    dpiTag := (dpi, dpi), encoderCalls := g.calls,
    draws := titleOp :: qrOp :: (binOps ++ barcodeOps ++ descOps),
    returnedPath := o 2 }

/-- `create_1x3_product_label` (lines 127-205): 3in x 1in product label,
same structure as the 1x2 kind with its own constants (bin font 0.09 x H,
bin wrap 22, bin offset +5, barcode width 0.4 x W, description wrap 32). -/
def create_1x3_product_label (m : Measure) (o : ℕ → ℕ)
    (qr_data : List Char) (barcode_data : Option (List Char))
    (description bin_location product_code title : List Char) : LabelOutput :=
  let dpi : ℕ := 203
  let label_width_px : ℕ := 3 * dpi
  let label_height_px : ℕ := 1 * dpi
  let g := generate_codes o qr_data barcode_data
  let font_title : ℕ := (pyInt ((0.1 : ℚ) * label_height_px)).toNat
  let title_x : ℚ := ((label_width_px : ℚ) - m title font_title) / 2
  let titleOp := DrawOp.text title_x ((pyInt ((label_height_px : ℚ) * 0.02) : ℤ) : ℚ)
    title font_title
  let qr_img := (g.fs g.qrFile).getD Raster.missing
  let qr_width : ℕ := (pyInt ((label_height_px : ℚ) * 0.5)).toNat
  let qr_x : ℤ := pyInt ((label_width_px : ℚ) * 0.05)
  let qr_y : ℤ := pyInt ((label_height_px : ℚ) * 0.15)
  let qrOp := DrawOp.paste qr_img qr_x qr_y qr_width qr_width
  let font_bin : ℕ := (pyInt ((0.09 : ℚ) * label_height_px)).toNat
  let max_bin_line_length : ℕ := 22
  let wrapped_bin_lines := wrap bin_location max_bin_line_length
  let bin_x : ℤ := qr_x
  let bin_y : ℤ := qr_y + qr_width + 5
  let binOps := wrapped_bin_lines.enum.map fun p =>
    DrawOp.text (bin_x : ℚ) ((bin_y : ℚ) + p.1 * ((font_bin : ℚ) + 2)) p.2 font_bin
  let barcode_width : ℕ := (pyInt ((label_width_px : ℚ) * 0.4)).toNat
  let barcode_height : ℕ := (pyInt ((label_height_px : ℚ) * 0.3)).toNat
  let barcode_x : ℤ := pyInt ((label_width_px : ℚ) * 0.55)
  let barcode_y : ℤ := pyInt ((label_height_px : ℚ) * 0.2)
  let font_barcode_text : ℕ := (pyInt ((0.08 : ℚ) * label_height_px)).toNat
  let barcodeOps : List DrawOp :=
    match g.barcodeFile with
    | some bf =>
      let barcode_img := (g.fs bf).getD Raster.missing
      let text_width := m product_code font_barcode_text
      let text_x : ℚ := (barcode_x : ℚ) + ((barcode_width : ℚ) - text_width) / 2
      let text_y : ℚ := (barcode_y : ℚ) + (barcode_height : ℚ) + 5
      [DrawOp.paste barcode_img barcode_x barcode_y barcode_width barcode_height,
       DrawOp.text text_x text_y product_code font_barcode_text]
    | none => []
  let font_desc : ℕ := (pyInt ((0.08 : ℚ) * label_height_px)).toNat
  let max_desc_line_length : ℕ := 32
  let wrapped_desc_lines := wrap description max_desc_line_length
  let desc_x : ℚ := match g.barcodeFile with
    | some _ => (barcode_x : ℚ)
    | none => (qr_x : ℚ)
  let desc_y : ℚ := (label_height_px : ℚ) * 0.625
  let descOps := wrapped_desc_lines.enum.map fun p =>
    DrawOp.text desc_x (desc_y + p.1 * ((font_desc : ℚ) + 2)) p.2 font_desc
  { widthPx := label_width_px, heightPx := label_height_px,
    mode := ("RGB" : String), background := ("white" : String),
    dpiTag := (dpi, dpi), encoderCalls := g.calls,
    draws := titleOp :: qrOp :: (binOps ++ barcodeOps ++ descOps),
    returnedPath := o 2 }

/-- `create_1x4_shelf_label` (lines 208-257): 4in x 1in shelf label.  QR of
the bin location resized to 0.8 x H and pasted so its right edge sits at
0.85 x W; a literal caption drawn at the left margin; the bin location
wrapped at 20 characters under the caption. -/
def create_1x4_shelf_label (m : Measure) (o : ℕ → ℕ)
    (bin_location title : List Char) : LabelOutput :=
  let dpi : ℕ := 203
  let label_width_px : ℕ := 4 * dpi
  let label_height_px : ℕ := 1 * dpi
  let g := generate_codes o bin_location none
  let font_title : ℕ := (pyInt ((0.1 : ℚ) * label_height_px)).toNat
  let title_x : ℚ := ((label_width_px : ℚ) - m title font_title) / 2
  let titleOp := DrawOp.text title_x ((pyInt ((label_height_px : ℚ) * 0.02) : ℤ) : ℚ)
    title font_title
  let qr_img := (g.fs g.qrFile).getD Raster.missing
  let qr_width : ℕ := (pyInt ((label_height_px : ℚ) * 0.8)).toNat
  let qr_x : ℤ := pyInt ((label_width_px : ℚ) * 0.85) - qr_width
  let qr_y : ℤ := pyInt (((label_height_px : ℚ) - (qr_width : ℚ)) / 2)
  let qrOp := DrawOp.paste qr_img qr_x qr_y qr_width qr_width
  let font_bin_label : ℕ := (pyInt ((0.15 : ℚ) * label_height_px)).toNat
  let bin_label_x : ℤ := pyInt ((label_width_px : ℚ) * 0.05)
  let bin_label_y : ℤ := pyInt ((label_height_px : ℚ) * 0.2)
  let captionOp := DrawOp.text (bin_label_x : ℚ) (bin_label_y : ℚ)
    ("Bin #:".toList) font_bin_label
  let font_bin_value : ℕ := (pyInt ((0.15 : ℚ) * label_height_px)).toNat
  let max_chars_per_line : ℕ := 20
  let wrapped_lines := wrap bin_location max_chars_per_line
  let bin_value_y : ℤ := bin_label_y + font_bin_label + 5
  let line_height : ℕ := font_bin_value + 2
  let valueOps := wrapped_lines.enum.map fun p =>
    DrawOp.text (bin_label_x : ℚ) ((bin_value_y : ℚ) + p.1 * (line_height : ℚ))
      p.2 font_bin_value
  { widthPx := label_width_px, heightPx := label_height_px,
    mode := ("RGB" : String), background := ("white" : String),
    dpiTag := (dpi, dpi), encoderCalls := g.calls,
    draws := titleOp :: qrOp :: captionOp :: valueOps,
    returnedPath := o 2 }

/-- `create_2x4_shelf_label` (lines 259-307): 4in x 2in shelf label.  QR of
the bin location resized to 0.65 x H, pasted near the right edge.  The
source computes a caption font and position (lines 286-288) but, unlike the
1x4 routine and despite its own comment, never issues the `draw.text` call
for the caption, so the draw sequence goes straight from the QR paste to
the wrapped bin-location value (5 chars/line, font 0.3 x H). -/
def create_2x4_shelf_label (m : Measure) (o : ℕ → ℕ)
    (bin_location title : List Char) : LabelOutput :=
  let dpi : ℕ := 203
  let label_width_px : ℕ := 4 * dpi
  let label_height_px : ℕ := 2 * dpi
  let g := generate_codes o bin_location none
  let font_title : ℕ := (pyInt ((0.1 : ℚ) * label_height_px)).toNat
  let title_x : ℚ := ((label_width_px : ℚ) - m title font_title) / 2
  let titleOp := DrawOp.text title_x ((pyInt ((label_height_px : ℚ) * 0.03) : ℤ) : ℚ)
    title font_title
  let qr_img := (g.fs g.qrFile).getD Raster.missing
  let qr_width : ℕ := (pyInt ((label_height_px : ℚ) * 0.65)).toNat
  let qr_x : ℤ := pyInt ((label_width_px : ℚ) - (qr_width : ℚ)
    - (label_width_px : ℚ) * 0.05)
  let qr_y : ℤ := pyInt ((label_height_px : ℚ) * 0.25)
  let qrOp := DrawOp.paste qr_img qr_x qr_y qr_width qr_width
  let font_bin_label : ℕ := (pyInt ((0.16 : ℚ) * label_height_px)).toNat
  let bin_label_x : ℤ := pyInt ((label_width_px : ℚ) * 0.05)
  let bin_label_y : ℤ := pyInt ((label_height_px : ℚ) * 0.15)
  let font_bin_value : ℕ := (pyInt ((0.3 : ℚ) * label_height_px)).toNat
  let max_chars_per_line : ℕ := 5
  let wrapped_lines := wrap bin_location max_chars_per_line
  let bin_value_y : ℤ := bin_label_y + font_bin_label + 5
  let line_height : ℕ := font_bin_value + 2
  let valueOps := wrapped_lines.enum.map fun p =>
    DrawOp.text (bin_label_x : ℚ) ((bin_value_y : ℚ) + p.1 * (line_height : ℚ))
      p.2 font_bin_value
  { widthPx := label_width_px, heightPx := label_height_px,
    mode := ("RGB" : String), background := ("white" : String),
    dpiTag := (dpi, dpi), encoderCalls := g.calls,
    draws := titleOp :: qrOp :: valueOps,
    returnedPath := o 2 }

/-- Measure that assigns width zero to every text, used to instantiate the
model at concrete inputs. -/
def mzero : Measure := fun _ _ => 0

/-- An axis-aligned rectangle of the canvas, in pixel coordinates. -/
structure Rect where
  x : ℚ
  y : ℚ
  w : ℚ
  h : ℚ

/-- Membership of a point in a rectangle (half-open on the far sides). -/
def Rect.Mem (p : ℚ × ℚ) (r : Rect) : Prop :=
  r.x ≤ p.1 ∧ p.1 < r.x + r.w ∧ r.y ≤ p.2 ∧ p.2 < r.y + r.h

/-- Pixel footprint of a drawing call: a pasted image covers its target
rectangle; a text call covers a box of the measured text width and the
font-size height at its anchor. -/
def DrawOp.box (m : Measure) : DrawOp → Rect
  | DrawOp.text x y c f => ⟨x, y, m c f, (f : ℚ)⟩
  | DrawOp.paste _ x y w h => ⟨(x : ℚ), (y : ℚ), (w : ℚ), (h : ℚ)⟩

/-- Rectangle where the barcode of the 1x2 product label renders, from the
constants of `create_1x2_product_label` lines 92-97. -/
def barcodeBox1x2 : Rect :=
  ⟨((pyInt ((406 : ℚ) * 0.55) : ℤ) : ℚ), ((pyInt ((203 : ℚ) * 0.2) : ℤ) : ℚ),
    ((pyInt ((406 : ℚ) * 0.45) : ℤ) : ℚ), ((pyInt ((203 : ℚ) * 0.3) : ℤ) : ℚ)⟩

/-- Rectangle where the product-code text under the 1x2 barcode renders
(lines 100-104), for a given measure. -/
def barcodeTextBox1x2 (m : Measure) (product_code : List Char) : Rect :=
  let fsz : ℕ := (pyInt ((0.08 : ℚ) * 203)).toNat
  let tw := m product_code fsz
  ⟨((pyInt ((406 : ℚ) * 0.55) : ℤ) : ℚ) + (((pyInt ((406 : ℚ) * 0.45) : ℤ) : ℚ) - tw) / 2,
    ((pyInt ((203 : ℚ) * 0.2) : ℤ) : ℚ) + ((pyInt ((203 : ℚ) * 0.3) : ℤ) : ℚ) + 5,
    tw, (fsz : ℚ)⟩

/-- Rectangle where the barcode of the 1x3 product label renders, from the
constants of `create_1x3_product_label` lines 171-177. -/
def barcodeBox1x3 : Rect :=
  ⟨((pyInt ((609 : ℚ) * 0.55) : ℤ) : ℚ), ((pyInt ((203 : ℚ) * 0.2) : ℤ) : ℚ),
    ((pyInt ((609 : ℚ) * 0.4) : ℤ) : ℚ), ((pyInt ((203 : ℚ) * 0.3) : ℤ) : ℚ)⟩

/-- Rectangle where the product-code text under the 1x3 barcode renders
(lines 180-184), for a given measure. -/
def barcodeTextBox1x3 (m : Measure) (product_code : List Char) : Rect :=
  let fsz : ℕ := (pyInt ((0.08 : ℚ) * 203)).toNat
  let tw := m product_code fsz
  ⟨((pyInt ((609 : ℚ) * 0.55) : ℤ) : ℚ) + (((pyInt ((609 : ℚ) * 0.4) : ℤ) : ℚ) - tw) / 2,
    ((pyInt ((203 : ℚ) * 0.2) : ℤ) : ℚ) + ((pyInt ((203 : ℚ) * 0.3) : ℤ) : ℚ) + 5,
    tw, (fsz : ℚ)⟩

/-- Error kinds a compositing call can actually raise: the encoder
libraries rejecting a payload, or a resource such as the `arial.ttf`
typeface failing to load. -/
inductive Err where
  | EncodingFailed
  | ResourceUnavailable
  deriving DecidableEq

/-- Behaviour of the external capabilities in one run: whether QR encoding
and saving succeeds, whether barcode encoding and saving succeeds, and
whether the typeface loads. -/
structure Env where
  qrOk : Bool
  barcodeOk : Bool
  fontOk : Bool
  deriving DecidableEq

deriving instance DecidableEq for Except

/-- Temporary-file lifecycle of one compositing call: the outcome, the
intermediate encoder temp files created (in creation order), and the ones
removed by `os.remove` before the call returns (in removal order). -/
structure RunOut where
  result : Except Err Unit
  created : List ℕ
  removed : List ℕ
  deriving DecidableEq

/-- Lifecycle of `generate_codes`: the QR temp file is created first, then
the QR is encoded and saved (which can fail); when `barcode_data` is
truthy, a second temp file is created and the barcode encoded and saved
(which can fail).  No path of this function removes anything. -/
def generate_codes_run (env : Env) (o : ℕ → ℕ) (qr_data : List Char)
    (barcode_data : Option (List Char)) :
    Except Err (ℕ × Option ℕ) × List ℕ :=
  let qr_file := o 0
  if !env.qrOk then (Except.error Err.EncodingFailed, [qr_file])
  else if truthy barcode_data then
    let barcode_file := o 1
    if !env.barcodeOk then (Except.error Err.EncodingFailed, [qr_file, barcode_file])
    else (Except.ok (qr_file, some barcode_file), [qr_file, barcode_file])
  else (Except.ok (qr_file, none), [qr_file])

/-- Temporary-file lifecycle of `create_1x2_product_label` (lines 47-125):
a failure in `generate_codes` propagates with nothing removed; the first
font load (line 68) is the next fallible operation, and a failure there
returns with nothing removed; only the success path reaches the
`os.remove` calls at lines 121-123. -/
def create_1x2_product_label_run (env : Env) (o : ℕ → ℕ) (qr_data : List Char)
    (barcode_data : Option (List Char)) : RunOut :=
  match generate_codes_run env o qr_data barcode_data with
  | (Except.error e, created) =>
    { result := Except.error e, created := created, removed := [] }
  | (Except.ok (qr_file, barcode_file), created) =>
    if !env.fontOk then
      { result := Except.error Err.ResourceUnavailable, created := created, removed := [] }
    else
      { result := Except.ok (), created := created,
        removed := qr_file :: (match barcode_file with
          | some bf => [bf]
          | none => []) }

/-- Temporary-file lifecycle of `create_1x3_product_label` (lines 127-205):
identical control flow to the 1x2 routine (the differing layout constants
do not touch the file lifecycle). -/
def create_1x3_product_label_run (env : Env) (o : ℕ → ℕ) (qr_data : List Char)
    (barcode_data : Option (List Char)) : RunOut :=
  match generate_codes_run env o qr_data barcode_data with
  | (Except.error e, created) =>
    { result := Except.error e, created := created, removed := [] }
  | (Except.ok (qr_file, barcode_file), created) =>
    if !env.fontOk then
      { result := Except.error Err.ResourceUnavailable, created := created, removed := [] }
    else
      { result := Except.ok (), created := created,
        removed := qr_file :: (match barcode_file with
          | some bf => [bf]
          | none => []) }

/-- Temporary-file lifecycle of `create_1x4_shelf_label` (lines 208-257):
only a QR temp file is involved; it is removed (line 255) on the success
path only. -/
def create_1x4_shelf_label_run (env : Env) (o : ℕ → ℕ)
    (bin_location : List Char) : RunOut :=
  match generate_codes_run env o bin_location none with
  | (Except.error e, created) =>
    { result := Except.error e, created := created, removed := [] }
  | (Except.ok (qr_file, _), created) =>
    if !env.fontOk then
      { result := Except.error Err.ResourceUnavailable, created := created, removed := [] }
    else
      { result := Except.ok (), created := created, removed := [qr_file] }

/-- Temporary-file lifecycle of `create_2x4_shelf_label` (lines 259-307):
same shape as the 1x4 routine (removal at line 305, success path only). -/
def create_2x4_shelf_label_run (env : Env) (o : ℕ → ℕ)
    (bin_location : List Char) : RunOut :=
  match generate_codes_run env o bin_location none with
  | (Except.error e, created) =>
    { result := Except.error e, created := created, removed := [] }
  | (Except.ok (qr_file, _), created) =>
    if !env.fontOk then
      { result := Except.error Err.ResourceUnavailable, created := created, removed := [] }
    else
      { result := Except.ok (), created := created, removed := [qr_file] }

/-- Observable behaviour of one click of the generate button
(`generate_labels`, `main.py` lines 79-149): whether a label canvas was
composed, the encoder invocations made, whether the raster was converted
to ZPL, how many copies were sent to the printer, whether the function
raised, and the console message printed by the no-label-type branch. -/
structure GenLabelsTrace where
  canvasesAllocated : ℕ
  encoderCalls : List EncoderCall
  convertedToZpl : Bool
  copiesSent : ℕ
  errorRaised : Bool
  message : Option String
  deriving DecidableEq

/-- The label-type dispatcher of `generate_labels` (`main.py` lines
94-126) followed by the conversion and print steps (lines 130-139), with
the external collaborators (Labelary conversion, spooler) modelled as
succeeding.  The four known selector values route to the four compositors
(product labels get `qr_data = manufacturer_number` and `barcode_data =
product_number`; shelf labels get the fixed title); any other selector
prints a message and returns normally, performing no work. -/
def generate_labels (m : Measure) (o : ℕ → ℕ) (selected_label : String)
    (manufacturer_number product_number description bin_location manufacturer : List Char)
    (num_copies : ℕ) (printer_selected : Bool) : GenLabelsTrace :=
  if selected_label = ("1x2" : String) then
    let out := create_1x2_product_label m o manufacturer_number
      (some product_number) description bin_location product_number manufacturer
    { canvasesAllocated := 1, encoderCalls := out.encoderCalls,
      convertedToZpl := true,
      copiesSent := if printer_selected then num_copies else 0,
      errorRaised := false, message := none }
  else if selected_label = ("1x3" : String) then
    let out := create_1x3_product_label m o manufacturer_number
      (some product_number) description bin_location product_number manufacturer
    { canvasesAllocated := 1, encoderCalls := out.encoderCalls,
      convertedToZpl := true,
      copiesSent := if printer_selected then num_copies else 0,
      errorRaised := false, message := none }
  else if selected_label = ("1x4" : String) then
    let out := create_1x4_shelf_label m o bin_location ("EquipmentShare".toList)
    { canvasesAllocated := 1, encoderCalls := out.encoderCalls,
      convertedToZpl := true,
      copiesSent := if printer_selected then num_copies else 0,
      errorRaised := false, message := none }
  else if selected_label = ("2x4" : String) then
    let out := create_2x4_shelf_label m o bin_location ("EquipmentShare".toList)
    { canvasesAllocated := 1, encoderCalls := out.encoderCalls,
      convertedToZpl := true,
      copiesSent := if printer_selected then num_copies else 0,
      errorRaised := false, message := none }
  else
    { canvasesAllocated := 0, encoderCalls := [], convertedToZpl := false,
      copiesSent := 0, errorRaised := false,
      message := some ("No label type selected." : String) }

/-- Canvas raster data of a compositing result: every observable component
except the returned temporary-file path. -/
def rasterData (out : LabelOutput) :
    ℕ × ℕ × String × String × (ℕ × ℕ) × List EncoderCall × List DrawOp :=
  (out.widthPx, out.heightPx, out.mode, out.background, out.dpiTag,
    out.encoderCalls, out.draws)

theorem wrap_nil (k : ℕ) : wrap [] k = [] := by
  cases k with
  | zero => simp [wrap]
  | succ n =>
    simp only [wrap, List.length_nil]
    rw [Nat.div_eq_of_lt (by omega)]
    simp

theorem ceil_div_step (n k : ℕ) (hk : 0 < k) (hn : 0 < n) :
    (n - k + k - 1) / k + 1 = (n + k - 1) / k := by
  rcases le_or_lt k n with h | h
  · have h1 : n - k + k = n := Nat.sub_add_cancel h
    rw [h1]
    have h2 : n + k - 1 = (n - 1) + k := by omega
    rw [h2, Nat.add_div_right _ hk]
  · have h1 : n - k = 0 := by omega
    rw [h1]
    have h2 : (0 + k - 1) / k = 0 := Nat.div_eq_of_lt (by omega)
    have h3 : n + k - 1 = (n - 1) + k := by omega
    have h4 : (n - 1) / k = 0 := Nat.div_eq_of_lt (by omega)
    rw [h2, h3, Nat.add_div_right _ hk, h4]

theorem wrap_eq_cons (s : List Char) (k : ℕ) (hk : 0 < k) (hs : s ≠ []) :
    wrap s k = s.take k :: wrap (s.drop k) k := by
  have hpos : 0 < s.length := List.length_pos.mpr hs
  have hlen : (s.length + k - 1) / k = ((s.drop k).length + k - 1) / k + 1 := by
    rw [List.length_drop]
    exact (ceil_div_step s.length k hk hpos).symm
  have hfun : ((fun i => (s.drop (i * k)).take k) ∘ Nat.succ)
      = fun i => ((s.drop k).drop (i * k)).take k := by
    funext i
    simp only [Function.comp_apply, List.drop_drop]
    rw [Nat.succ_mul, Nat.add_comm (i * k) k]
  rw [wrap, wrap, hlen, List.range_succ_eq_map, List.map_cons, List.map_map, hfun]
  simp

theorem wrap_ne_nil (s : List Char) (k : ℕ) (hk : 0 < k) (hs : s ≠ []) :
    wrap s k ≠ [] := by
  rw [wrap_eq_cons s k hk hs]
  exact List.cons_ne_nil _ _

theorem wrap_join (s : List Char) (k : ℕ) (hk : 0 < k) :
    (wrap s k).flatten = s := by
  rcases eq_or_ne s [] with hs | hs
  · subst hs; simp [wrap_nil]
  · rw [wrap_eq_cons s k hk hs, List.flatten_cons, wrap_join (s.drop k) k hk,
      List.take_append_drop]
termination_by s.length
decreasing_by
  have hpos : 0 < s.length := List.length_pos.mpr hs
  simp [List.length_drop]
  omega

theorem wrap_mem_length (s : List Char) (k : ℕ) (hk : 0 < k) :
    ∀ l ∈ wrap s k, 0 < l.length ∧ l.length ≤ k := by
  intro l hl
  rcases eq_or_ne s [] with hs | hs
  · subst hs; simp [wrap_nil] at hl
  · rw [wrap_eq_cons s k hk hs] at hl
    rcases List.mem_cons.mp hl with h | h
    · subst h
      have hpos : 0 < s.length := List.length_pos.mpr hs
      constructor
      · simp [List.length_take]; omega
      · simp [List.length_take]
    · exact wrap_mem_length (s.drop k) k hk l h
termination_by s.length
decreasing_by
  have hpos : 0 < s.length := List.length_pos.mpr hs
  simp [List.length_drop]
  omega

theorem wrap_dropLast_length (s : List Char) (k : ℕ) (hk : 0 < k) :
    ∀ l ∈ (wrap s k).dropLast, l.length = k := by
  intro l hl
  rcases eq_or_ne s [] with hs | hs
  · subst hs; simp [wrap_nil] at hl
  · rw [wrap_eq_cons s k hk hs] at hl
    rcases eq_or_ne (s.drop k) [] with hd | hd
    · rw [hd, wrap_nil] at hl
      simp at hl
    · have hlong : k < s.length := by
        have := List.length_pos.mpr hd
        simp [List.length_drop] at this
        omega
      have hne : wrap (s.drop k) k ≠ [] := wrap_ne_nil (s.drop k) k hk hd
      rw [List.dropLast_cons_of_ne_nil hne] at hl
      rcases List.mem_cons.mp hl with h | h
      · subst h
        simp [List.length_take]
        omega
      · exact wrap_dropLast_length (s.drop k) k hk l h
termination_by s.length
decreasing_by
  have hpos : 0 < s.length := List.length_pos.mpr hs
  simp [List.length_drop]
  omega

theorem wrap_length_eq (s : List Char) (k : ℕ) (hk : 0 < k) :
    (wrap s k).length = (s.length + k - 1) / k := by
  simp [wrap]

theorem wrap_get_eq (s : List Char) (k : ℕ) (hk : 0 < k) :
    ∀ i l, (wrap s k)[i]? = some l → l = (s.drop (i * k)).take k := by
  intro i l hl
  rcases eq_or_ne s [] with hs | hs
  · subst hs; simp [wrap_nil] at hl
  · rw [wrap_eq_cons s k hk hs] at hl
    cases i with
    | zero => simp at hl; simp [hl.symm]
    | succ j =>
      simp only [List.getElem?_cons_succ] at hl
      have := wrap_get_eq (s.drop k) k hk j l hl
      rw [this, List.drop_drop]
      congr 1
      ring
termination_by s.length
decreasing_by
  have hpos : 0 < s.length := List.length_pos.mpr hs
  simp [List.length_drop]
  omega

/-- C1: the text wrapper splits a string into consecutive fixed-length
chunks of exactly `k` characters (chunk `i` is the slice starting at
`i * k`, so words are split mid-word); concatenation reproduces the input,
every line but possibly the last has length exactly `k`, lines are never
empty, the number of lines is `ceil (len s / k)`, and the empty string
yields zero lines. -/
theorem wrap_fixed_chunks (s : List Char) (k : ℕ) (hk : 0 < k) :
    (wrap s k).flatten = s
    ∧ (∀ l ∈ (wrap s k).dropLast, l.length = k)
    ∧ (∀ l ∈ wrap s k, 0 < l.length ∧ l.length ≤ k)
    ∧ (wrap s k).length = (s.length + k - 1) / k
    ∧ (∀ i l, (wrap s k)[i]? = some l → l = (s.drop (i * k)).take k)
    ∧ (s = [] → wrap s k = []) :=
  ⟨wrap_join s k hk, wrap_dropLast_length s k hk, wrap_mem_length s k hk,
    wrap_length_eq s k hk, wrap_get_eq s k hk, fun hs => by rw [hs, wrap_nil]⟩

/-- Witness for C1 at the concrete input "hello world", limit 4. -/
theorem wrap_fixed_chunks_witness :
    0 < 4
    ∧ ((wrap ("hello world".toList) 4).flatten = ("hello world".toList)
      ∧ (∀ l ∈ (wrap ("hello world".toList) 4).dropLast, l.length = 4)
      ∧ (∀ l ∈ wrap ("hello world".toList) 4, 0 < l.length ∧ l.length ≤ 4)
      ∧ (wrap ("hello world".toList) 4).length
          = (("hello world".toList).length + 4 - 1) / 4
      ∧ (∀ i l, (wrap ("hello world".toList) 4)[i]? = some l
          → l = (("hello world".toList).drop (i * 4)).take 4)
      ∧ (("hello world".toList) = [] → wrap ("hello world".toList) 4 = [])) :=
  ⟨by decide, wrap_fixed_chunks ("hello world".toList) 4 (by decide)⟩

/-- C5: every compositor returns an RGB canvas of exactly
widthInches x 203 by heightInches x 203 pixels (2x1 in, 3x1 in, 4x1 in,
4x2 in respectively), with a white background, tagged with (203, 203) DPI
metadata; since the code validates nothing, this holds for every request,
in particular every valid one. -/
theorem compose_canvas_metadata (m : Measure) (o : ℕ → ℕ)
    (qd : List Char) (bcd : Option (List Char)) (desc bin pc title : List Char) :
    ((create_1x2_product_label m o qd bcd desc bin pc title).widthPx = 2 * 203
      ∧ (create_1x2_product_label m o qd bcd desc bin pc title).heightPx = 1 * 203
      ∧ (create_1x2_product_label m o qd bcd desc bin pc title).mode = ("RGB" : String)
      ∧ (create_1x2_product_label m o qd bcd desc bin pc title).background = ("white" : String)
      ∧ (create_1x2_product_label m o qd bcd desc bin pc title).dpiTag = (203, 203))
    ∧ ((create_1x3_product_label m o qd bcd desc bin pc title).widthPx = 3 * 203
      ∧ (create_1x3_product_label m o qd bcd desc bin pc title).heightPx = 1 * 203
      ∧ (create_1x3_product_label m o qd bcd desc bin pc title).mode = ("RGB" : String)
      ∧ (create_1x3_product_label m o qd bcd desc bin pc title).background = ("white" : String)
      ∧ (create_1x3_product_label m o qd bcd desc bin pc title).dpiTag = (203, 203))
    ∧ ((create_1x4_shelf_label m o bin title).widthPx = 4 * 203
      ∧ (create_1x4_shelf_label m o bin title).heightPx = 1 * 203
      ∧ (create_1x4_shelf_label m o bin title).mode = ("RGB" : String)
      ∧ (create_1x4_shelf_label m o bin title).background = ("white" : String)
      ∧ (create_1x4_shelf_label m o bin title).dpiTag = (203, 203))
    ∧ ((create_2x4_shelf_label m o bin title).widthPx = 4 * 203
      ∧ (create_2x4_shelf_label m o bin title).heightPx = 2 * 203
      ∧ (create_2x4_shelf_label m o bin title).mode = ("RGB" : String)
      ∧ (create_2x4_shelf_label m o bin title).background = ("white" : String)
      ∧ (create_2x4_shelf_label m o bin title).dpiTag = (203, 203)) :=
  ⟨⟨rfl, rfl, rfl, rfl, rfl⟩, ⟨rfl, rfl, rfl, rfl, rfl⟩,
    ⟨rfl, rfl, rfl, rfl, rfl⟩, ⟨rfl, rfl, rfl, rfl, rfl⟩⟩

/-- C2 counterexample: composing a product label with empty `qr_data` (and
a shelf label with empty `bin_location`) does not fail: the run completes
successfully and the QR encoder is invoked on the empty string, so no
`InvalidArgument` validation happens before the encoders. -/
theorem no_validation_counterexample :
    (create_1x2_product_label mzero id [] none [] [] [] []).encoderCalls
        = [EncoderCall.qr []]
    ∧ (create_1x4_shelf_label mzero id [] []).encoderCalls = [EncoderCall.qr []]
    ∧ (create_1x2_product_label_run ⟨true, true, true⟩ id [] none).result
        = Except.ok ()
    ∧ (create_1x4_shelf_label_run ⟨true, true, true⟩ id []).result
        = Except.ok () :=
  ⟨rfl, rfl, rfl, rfl⟩

/-- C2 amended: the compositors perform no input validation.  A product
label with empty `qr_data`, or a shelf label with empty `bin_location`,
raises no `InvalidArgument`: the QR encoder is invoked on the empty string
and (with the external capabilities succeeding) the call completes
normally. -/
theorem empty_data_reaches_encoder (m : Measure) (o : ℕ → ℕ)
    (desc bin pc title : List Char) :
    (create_1x2_product_label m o [] none desc bin pc title).encoderCalls
        = [EncoderCall.qr []]
    ∧ (create_1x3_product_label m o [] none desc bin pc title).encoderCalls
        = [EncoderCall.qr []]
    ∧ (create_1x4_shelf_label m o [] title).encoderCalls = [EncoderCall.qr []]
    ∧ (create_2x4_shelf_label m o [] title).encoderCalls = [EncoderCall.qr []]
    ∧ (create_1x2_product_label_run ⟨true, true, true⟩ o [] none).result
        = Except.ok ()
    ∧ (create_1x4_shelf_label_run ⟨true, true, true⟩ o []).result
        = Except.ok () :=
  ⟨rfl, rfl, rfl, rfl, rfl, rfl⟩

/-- C3: evaluating both shelf compositors at the failing input
(binLocation "AA10", title "EquipmentShare") shows the 1x4 label draws
the literal caption (with font 0.15 x height = 30) while the 2x4 label,
contrary to the claim and to the comment in its own source, never draws
it. -/
theorem shelf_caption_divergence :
    ((create_1x4_shelf_label mzero id ("AA10".toList) ("EquipmentShare".toList)).draws)[2]?
        = some (DrawOp.text 40 40 ("Bin #:".toList) 30)
    ∧ (30 : ℤ) = pyInt ((0.15 : ℚ) * 203)
    ∧ ((create_2x4_shelf_label mzero id ("AA10".toList) ("EquipmentShare".toList)).draws.any
        fun op => match op with
          | DrawOp.text _ _ c _ => c == "Bin #:".toList
          | _ => false) = false := by
  refine ⟨?_, by norm_num [pyInt], by decide⟩
  simp only [create_1x4_shelf_label]
  norm_num [pyInt]
  decide

/-- C4 counterexample: when the barcode encoder fails (after the QR
temporary file has been created and written), `create_1x2_product_label`
propagates the error without removing anything: the QR and barcode
temporary files leak past the call. -/
theorem cleanup_leak_counterexample :
    (create_1x2_product_label_run ⟨true, false, true⟩ id ("123".toList)
        (some ("456".toList))).result = Except.error Err.EncodingFailed
    ∧ (create_1x2_product_label_run ⟨true, false, true⟩ id ("123".toList)
        (some ("456".toList))).created = [0, 1]
    ∧ (create_1x2_product_label_run ⟨true, false, true⟩ id ("123".toList)
        (some ("456".toList))).removed = [] := by
  refine ⟨?_, ?_, ?_⟩ <;> decide

/-- C4 amended: intermediate encoder temporary files are all released
before the call returns on the success path of every compositor; on
error exits (encoder failure, font failure) after the files were created
they are not released. -/
theorem cleanup_on_success (env : Env) (o : ℕ → ℕ) (qd : List Char)
    (bcd : Option (List Char)) (bin : List Char) :
    ((create_1x2_product_label_run env o qd bcd).result = Except.ok ()
      → (create_1x2_product_label_run env o qd bcd).removed
          = (create_1x2_product_label_run env o qd bcd).created)
    ∧ ((create_1x3_product_label_run env o qd bcd).result = Except.ok ()
      → (create_1x3_product_label_run env o qd bcd).removed
          = (create_1x3_product_label_run env o qd bcd).created)
    ∧ ((create_1x4_shelf_label_run env o bin).result = Except.ok ()
      → (create_1x4_shelf_label_run env o bin).removed
          = (create_1x4_shelf_label_run env o bin).created)
    ∧ ((create_2x4_shelf_label_run env o bin).result = Except.ok ()
      → (create_2x4_shelf_label_run env o bin).removed
          = (create_2x4_shelf_label_run env o bin).created) := by
  refine ⟨?_, ?_, ?_, ?_⟩
  · unfold create_1x2_product_label_run generate_codes_run
    cases hq : env.qrOk <;> cases ht : truthy bcd <;> cases hb : env.barcodeOk <;>
      cases hf : env.fontOk <;> simp
  · unfold create_1x3_product_label_run generate_codes_run
    cases hq : env.qrOk <;> cases ht : truthy bcd <;> cases hb : env.barcodeOk <;>
      cases hf : env.fontOk <;> simp
  · unfold create_1x4_shelf_label_run generate_codes_run
    cases hq : env.qrOk <;> cases hf : env.fontOk <;> simp [truthy]
  · unfold create_2x4_shelf_label_run generate_codes_run
    cases hq : env.qrOk <;> cases hf : env.fontOk <;> simp [truthy]

/-- Witness for C4 (amended) at a successful concrete run. -/
theorem cleanup_on_success_witness :
    (create_1x2_product_label_run ⟨true, true, true⟩ id ("a".toList)
        (some ("b".toList))).result = Except.ok ()
    ∧ (create_1x2_product_label_run ⟨true, true, true⟩ id ("a".toList)
        (some ("b".toList))).removed
      = (create_1x2_product_label_run ⟨true, true, true⟩ id ("a".toList)
        (some ("b".toList))).created :=
  ⟨by decide,
    (cleanup_on_success ⟨true, true, true⟩ id ("a".toList) (some ("b".toList)) []).1
      (by decide)⟩

/-- C8 counterexample: an unknown label-type selector does not fail with
`InvalidArgument` — `generate_labels` prints a message and returns
normally. -/
theorem dispatcher_unknown_counterexample :
    (generate_labels mzero id ("5x7" : String) [] [] [] [] [] 1 true).errorRaised
        = false
    ∧ (generate_labels mzero id ("5x7" : String) [] [] [] [] [] 1 true).message
        = some ("No label type selected." : String) := by
  constructor <;> decide

/-- C8 amended: for every selector that is none of the four known label
types, `generate_labels` performs no partial work — no label canvas is
composed, no encoder is invoked, nothing is converted to ZPL or sent to a
printer — but it returns normally after printing a message rather than
failing with `InvalidArgument`. -/
theorem dispatcher_unknown_no_work (m : Measure) (o : ℕ → ℕ) (sel : String)
    (mn pn desc bin mf : List Char) (nc : ℕ) (ps : Bool)
    (h1 : sel ≠ ("1x2" : String)) (h2 : sel ≠ ("1x3" : String))
    (h3 : sel ≠ ("1x4" : String)) (h4 : sel ≠ ("2x4" : String)) :
    generate_labels m o sel mn pn desc bin mf nc ps
      = { canvasesAllocated := 0, encoderCalls := [], convertedToZpl := false,
          copiesSent := 0, errorRaised := false,
          message := some ("No label type selected." : String) } := by
  unfold generate_labels
  rw [if_neg h1, if_neg h2, if_neg h3, if_neg h4]

/-- Witness for C8 (amended) at the concrete unknown selector "5x7". -/
theorem dispatcher_unknown_no_work_witness :
    (("5x7" : String) ≠ ("1x2" : String) ∧ ("5x7" : String) ≠ ("1x3" : String)
      ∧ ("5x7" : String) ≠ ("1x4" : String) ∧ ("5x7" : String) ≠ ("2x4" : String))
    ∧ generate_labels mzero id ("5x7" : String) [] [] [] [] [] 1 true
      = { canvasesAllocated := 0, encoderCalls := [], convertedToZpl := false,
          copiesSent := 0, errorRaised := false,
          message := some ("No label type selected." : String) } :=
  ⟨⟨by decide, by decide, by decide, by decide⟩,
    dispatcher_unknown_no_work mzero id ("5x7" : String) [] [] [] [] [] 1 true
      (by decide) (by decide) (by decide) (by decide)⟩

/-- C10: a product-label request whose `barcode_data` is the empty string
produces exactly the same observable behaviour as the same request with
`barcode_data = None` — truthiness decides barcode presence, so the
barcode encoder is not invoked, no barcode or product-code drawing
happens, the description is anchored at the QR column, and the run
completes without error. -/
theorem empty_barcode_same_as_none (m : Measure) (o : ℕ → ℕ)
    (qd desc bin pc title : List Char) :
    create_1x2_product_label m o qd (some []) desc bin pc title
      = create_1x2_product_label m o qd none desc bin pc title
    ∧ create_1x3_product_label m o qd (some []) desc bin pc title
      = create_1x3_product_label m o qd none desc bin pc title
    ∧ (create_1x2_product_label m o qd (some []) desc bin pc title).encoderCalls
      = [EncoderCall.qr qd]
    ∧ (create_1x2_product_label_run ⟨true, true, true⟩ o qd (some [])).result
      = Except.ok ()
    ∧ (create_1x2_product_label_run ⟨true, true, true⟩ o qd (some [])).created
      = (create_1x2_product_label_run ⟨true, true, true⟩ o qd (some [])).removed :=
  ⟨rfl, rfl, rfl, rfl, rfl⟩

/-- C7: on every request, the QR code is pasted (second draw call) as a
square of side `ratio x heightPx` with ratio 0.5 for both product kinds,
0.8 for the 1x4 shelf kind and 0.65 for the 2x4 shelf kind; the paste is
left-aligned at the 5 percent margin for the product kinds (QR in the left
half) and right-aligned for the shelf kinds (QR in the right half, right
edge at 0.85 x W for 1x4 and one 5 percent margin from the right edge,
up to `int` truncation, for 2x4). -/
theorem qr_ratio_and_anchor (m : Measure) (o : ℕ → ℕ) (qd : List Char)
    (bcd : Option (List Char)) (desc bin pc title : List Char) :
    ((match ((create_1x2_product_label m o qd bcd desc bin pc title).draws)[1]? with
      | some (DrawOp.paste _ x y w h) => x = 20 ∧ y = 30 ∧ w = 101 ∧ h = 101
      | _ => False)
      ∧ (101 : ℤ) = pyInt ((0.5 : ℚ) * 203)
      ∧ (20 : ℤ) = pyInt ((0.05 : ℚ) * 406) ∧ (20 + 101 : ℤ) ≤ 406 / 2)
    ∧ ((match ((create_1x3_product_label m o qd bcd desc bin pc title).draws)[1]? with
      | some (DrawOp.paste _ x y w h) => x = 30 ∧ y = 30 ∧ w = 101 ∧ h = 101
      | _ => False)
      ∧ (30 : ℤ) = pyInt ((0.05 : ℚ) * 609) ∧ (30 + 101 : ℤ) ≤ 609 / 2)
    ∧ ((match ((create_1x4_shelf_label m o bin title).draws)[1]? with
      | some (DrawOp.paste _ x y w h) => x = 528 ∧ y = 20 ∧ w = 162 ∧ h = 162
      | _ => False)
      ∧ (162 : ℤ) = pyInt ((0.8 : ℚ) * 203)
      ∧ (528 + 162 : ℤ) = pyInt ((0.85 : ℚ) * 812) ∧ (812 : ℤ) / 2 ≤ 528)
    ∧ ((match ((create_2x4_shelf_label m o bin title).draws)[1]? with
      | some (DrawOp.paste _ x y w h) => x = 508 ∧ y = 101 ∧ w = 263 ∧ h = 263
      | _ => False)
      ∧ (263 : ℤ) = pyInt ((0.65 : ℚ) * 406)
      ∧ (812 : ℤ) / 2 ≤ 508
      ∧ (812 - (508 + 263) : ℤ) ≤ pyInt ((0.05 : ℚ) * 812) + 1) := by
  refine ⟨⟨?_, by norm_num [pyInt], by norm_num [pyInt], by norm_num⟩,
    ⟨?_, by norm_num [pyInt], by norm_num⟩,
    ⟨?_, by norm_num [pyInt], by norm_num [pyInt], by norm_num⟩,
    ⟨?_, by norm_num [pyInt], by norm_num, by norm_num [pyInt]⟩⟩
  · simp only [create_1x2_product_label, List.getElem?_cons_succ,
      List.getElem?_cons_zero]
    norm_num [pyInt]
    decide
  · simp only [create_1x3_product_label, List.getElem?_cons_succ,
      List.getElem?_cons_zero]
    norm_num [pyInt]
    decide
  · simp only [create_1x4_shelf_label, List.getElem?_cons_succ,
      List.getElem?_cons_zero]
    norm_num [pyInt]
    simp only [show Int.toNat 162 = 162 from rfl]
    norm_num
  · simp only [create_2x4_shelf_label, List.getElem?_cons_succ,
      List.getElem?_cons_zero]
    norm_num [pyInt]
    simp only [show Int.toNat 263 = 263 from rfl]
    norm_num

/-- C9: composing the same request twice is deterministic — the canvas
raster data (dimensions, mode, background, DPI tag, encoder calls and draw
sequence) depends only on the request fields and the label kind, not on the
fresh temporary-file names supplied by the operating system (which are
distinct within one call, as `NamedTemporaryFile` guarantees); only the
returned path differs between runs. -/
theorem compose_deterministic (m : Measure) (o1 o2 : ℕ → ℕ)
    (h1 : o1 0 ≠ o1 1) (h2 : o2 0 ≠ o2 1)
    (qd : List Char) (bcd : Option (List Char)) (desc bin pc title : List Char) :
    rasterData (create_1x2_product_label m o1 qd bcd desc bin pc title)
      = rasterData (create_1x2_product_label m o2 qd bcd desc bin pc title)
    ∧ rasterData (create_1x3_product_label m o1 qd bcd desc bin pc title)
      = rasterData (create_1x3_product_label m o2 qd bcd desc bin pc title)
    ∧ rasterData (create_1x4_shelf_label m o1 bin title)
      = rasterData (create_1x4_shelf_label m o2 bin title)
    ∧ rasterData (create_2x4_shelf_label m o1 bin title)
      = rasterData (create_2x4_shelf_label m o2 bin title) := by
  rcases bcd with _ | (_ | ⟨c, cs⟩) <;>
    simp [rasterData, create_1x2_product_label, create_1x3_product_label,
      create_1x4_shelf_label, create_2x4_shelf_label, generate_codes,
      truthy, h1, h2]

/-- Witness for C9 with two concrete distinct-name supplies. -/
theorem compose_deterministic_witness :
    ((id : ℕ → ℕ) 0 ≠ (id : ℕ → ℕ) 1) ∧ (Nat.succ 0 ≠ Nat.succ 1)
    ∧ (rasterData (create_1x2_product_label mzero id ("q".toList)
          (some ("b".toList)) [] [] [] [])
        = rasterData (create_1x2_product_label mzero Nat.succ ("q".toList)
          (some ("b".toList)) [] [] [] [])
      ∧ rasterData (create_1x3_product_label mzero id ("q".toList)
          (some ("b".toList)) [] [] [] [])
        = rasterData (create_1x3_product_label mzero Nat.succ ("q".toList)
          (some ("b".toList)) [] [] [] [])
      ∧ rasterData (create_1x4_shelf_label mzero id [] [])
        = rasterData (create_1x4_shelf_label mzero Nat.succ [] [])
      ∧ rasterData (create_2x4_shelf_label mzero id [] [])
        = rasterData (create_2x4_shelf_label mzero Nat.succ [] [])) :=
  ⟨by decide, by decide,
    compose_deterministic mzero id Nat.succ (by decide) (by decide)
      ("q".toList) (some ("b".toList)) [] [] [] []⟩

theorem box1x2_pixels (m : Measure) (o : ℕ → ℕ) (qd desc bin pc title : List Char)
    (hM : m pc 16 ≤ 386) :
    ∀ op ∈ (create_1x2_product_label m o qd none desc bin pc title).draws,
      ∀ p : ℚ × ℚ, Rect.Mem p (DrawOp.box m op)
        → ¬ (Rect.Mem p barcodeBox1x2 ∨ Rect.Mem p (barcodeTextBox1x2 m pc)) := by
  intro op hop p hmem hreg
  simp only [create_1x2_product_label, generate_codes, truthy] at hop
  simp at hop
  rcases hop with rfl | rfl | ⟨i, line, hq2, rfl⟩ | ⟨i, line, hq2, rfl⟩
  · rcases hreg with hr | hr <;>
    · simp only [DrawOp.box, Rect.Mem, barcodeBox1x2, barcodeTextBox1x2] at hmem hr
      norm_num [pyInt, Int.toNat] at hmem hr
      obtain ⟨m1, m2, m3, m4⟩ := hmem
      obtain ⟨r1, r2, r3, r4⟩ := hr
      linarith
  · rcases hreg with hr | hr <;>
    · simp only [DrawOp.box, Rect.Mem, barcodeBox1x2, barcodeTextBox1x2] at hmem hr
      norm_num [pyInt, Int.toNat] at hmem hr
      obtain ⟨m1, m2, m3, m4⟩ := hmem
      obtain ⟨r1, r2, r3, r4⟩ := hr
      linarith
  · rcases hreg with hr | hr <;>
    · simp only [DrawOp.box, Rect.Mem, barcodeBox1x2, barcodeTextBox1x2] at hmem hr
      norm_num [pyInt, Int.toNat] at hmem hr
      obtain ⟨m1, m2, m3, m4⟩ := hmem
      obtain ⟨r1, r2, r3, r4⟩ := hr
      have hi0 : (0 : ℚ) ≤ (i : ℚ) := Nat.cast_nonneg i
      linarith
  · rcases hreg with hr | hr <;>
    · simp only [DrawOp.box, Rect.Mem, barcodeBox1x2, barcodeTextBox1x2] at hmem hr
      norm_num [pyInt, Int.toNat] at hmem hr
      obtain ⟨m1, m2, m3, m4⟩ := hmem
      obtain ⟨r1, r2, r3, r4⟩ := hr
      have hi0 : (0 : ℚ) ≤ (i : ℚ) := Nat.cast_nonneg i
      linarith

theorem box1x3_pixels (m : Measure) (o : ℕ → ℕ) (qd desc bin pc title : List Char)
    (hM : m pc 16 ≤ 386) :
    ∀ op ∈ (create_1x3_product_label m o qd none desc bin pc title).draws,
      ∀ p : ℚ × ℚ, Rect.Mem p (DrawOp.box m op)
        → ¬ (Rect.Mem p barcodeBox1x3 ∨ Rect.Mem p (barcodeTextBox1x3 m pc)) := by
  intro op hop p hmem hreg
  simp only [create_1x3_product_label, generate_codes, truthy] at hop
  simp at hop
  rcases hop with rfl | rfl | ⟨i, line, hq2, rfl⟩ | ⟨i, line, hq2, rfl⟩
  · rcases hreg with hr | hr <;>
    · simp only [DrawOp.box, Rect.Mem, barcodeBox1x3, barcodeTextBox1x3] at hmem hr
      norm_num [pyInt, Int.toNat] at hmem hr
      obtain ⟨m1, m2, m3, m4⟩ := hmem
      obtain ⟨r1, r2, r3, r4⟩ := hr
      linarith
  · rcases hreg with hr | hr <;>
    · simp only [DrawOp.box, Rect.Mem, barcodeBox1x3, barcodeTextBox1x3] at hmem hr
      norm_num [pyInt, Int.toNat] at hmem hr
      obtain ⟨m1, m2, m3, m4⟩ := hmem
      obtain ⟨r1, r2, r3, r4⟩ := hr
      linarith
  · rcases hreg with hr | hr <;>
    · simp only [DrawOp.box, Rect.Mem, barcodeBox1x3, barcodeTextBox1x3] at hmem hr
      norm_num [pyInt, Int.toNat] at hmem hr
      obtain ⟨m1, m2, m3, m4⟩ := hmem
      obtain ⟨r1, r2, r3, r4⟩ := hr
      have hi0 : (0 : ℚ) ≤ (i : ℚ) := Nat.cast_nonneg i
      linarith
  · rcases hreg with hr | hr <;>
    · simp only [DrawOp.box, Rect.Mem, barcodeBox1x3, barcodeTextBox1x3] at hmem hr
      norm_num [pyInt, Int.toNat] at hmem hr
      obtain ⟨m1, m2, m3, m4⟩ := hmem
      obtain ⟨r1, r2, r3, r4⟩ := hr
      have hi0 : (0 : ℚ) ≤ (i : ℚ) := Nat.cast_nonneg i
      linarith

/-- C6: on a product-label request with `barcode_data = None`, the barcode
encoder is never invoked (only the QR call happens), no barcode raster is
pasted, the draw sequence consists of exactly the title, the QR paste, the
wrapped bin-location lines and the wrapped description lines, and no draw
call has a pixel footprint meeting the region where the barcode and its
product-code text would render — that region stays at the white
background.  The bound on the measured product-code width (386 px at the
16 px font) excludes a pathological font under which the would-be
centered product-code box would stretch left into the QR area. -/
theorem no_barcode_frame_effect (m : Measure) (o : ℕ → ℕ)
    (qd desc bin pc title : List Char) (hM : m pc 16 ≤ 386) :
    ((create_1x2_product_label m o qd none desc bin pc title).encoderCalls
        = [EncoderCall.qr qd]
      ∧ (∀ op ∈ (create_1x2_product_label m o qd none desc bin pc title).draws,
          ∀ d x y w h, op ≠ DrawOp.paste (Raster.barcodeImg d) x y w h)
      ∧ (create_1x2_product_label m o qd none desc bin pc title).draws.length
          = 2 + (wrap bin 18).length + (wrap desc 20).length
      ∧ ∀ op ∈ (create_1x2_product_label m o qd none desc bin pc title).draws,
          ∀ p : ℚ × ℚ, Rect.Mem p (DrawOp.box m op)
            → ¬ (Rect.Mem p barcodeBox1x2 ∨ Rect.Mem p (barcodeTextBox1x2 m pc)))
    ∧ ((create_1x3_product_label m o qd none desc bin pc title).encoderCalls
        = [EncoderCall.qr qd]
      ∧ (∀ op ∈ (create_1x3_product_label m o qd none desc bin pc title).draws,
          ∀ d x y w h, op ≠ DrawOp.paste (Raster.barcodeImg d) x y w h)
      ∧ (create_1x3_product_label m o qd none desc bin pc title).draws.length
          = 2 + (wrap bin 22).length + (wrap desc 32).length
      ∧ ∀ op ∈ (create_1x3_product_label m o qd none desc bin pc title).draws,
          ∀ p : ℚ × ℚ, Rect.Mem p (DrawOp.box m op)
            → ¬ (Rect.Mem p barcodeBox1x3 ∨ Rect.Mem p (barcodeTextBox1x3 m pc))) := by
  refine ⟨⟨rfl, ?_, ?_, box1x2_pixels m o qd desc bin pc title hM⟩,
    ⟨rfl, ?_, ?_, box1x3_pixels m o qd desc bin pc title hM⟩⟩
  · intro op hop d x y w h
    simp only [create_1x2_product_label, generate_codes, truthy] at hop
    simp at hop
    rcases hop with rfl | rfl | ⟨i, line, hq2, rfl⟩ | ⟨i, line, hq2, rfl⟩ <;> simp
  · simp [create_1x2_product_label, generate_codes, truthy, List.enum_length]
    omega
  · intro op hop d x y w h
    simp only [create_1x3_product_label, generate_codes, truthy] at hop
    simp at hop
    rcases hop with rfl | rfl | ⟨i, line, hq2, rfl⟩ | ⟨i, line, hq2, rfl⟩ <;> simp
  · simp [create_1x3_product_label, generate_codes, truthy, List.enum_length]
    omega

/-- Witness for C6 at a concrete request with no barcode data and the
zero-width measure. -/
theorem no_barcode_frame_effect_witness :
    mzero ("c".toList) 16 ≤ 386
    ∧ (((create_1x2_product_label mzero id ("q".toList) none ("d".toList)
          ("b".toList) ("c".toList) ("t".toList)).encoderCalls
        = [EncoderCall.qr ("q".toList)]
      ∧ (∀ op ∈ (create_1x2_product_label mzero id ("q".toList) none ("d".toList)
          ("b".toList) ("c".toList) ("t".toList)).draws,
          ∀ d x y w h, op ≠ DrawOp.paste (Raster.barcodeImg d) x y w h)
      ∧ (create_1x2_product_label mzero id ("q".toList) none ("d".toList)
          ("b".toList) ("c".toList) ("t".toList)).draws.length
          = 2 + (wrap ("b".toList) 18).length + (wrap ("d".toList) 20).length
      ∧ ∀ op ∈ (create_1x2_product_label mzero id ("q".toList) none ("d".toList)
          ("b".toList) ("c".toList) ("t".toList)).draws,
          ∀ p : ℚ × ℚ, Rect.Mem p (DrawOp.box mzero op)
            → ¬ (Rect.Mem p barcodeBox1x2
              ∨ Rect.Mem p (barcodeTextBox1x2 mzero ("c".toList))))
    ∧ ((create_1x3_product_label mzero id ("q".toList) none ("d".toList)
          ("b".toList) ("c".toList) ("t".toList)).encoderCalls
        = [EncoderCall.qr ("q".toList)]
      ∧ (∀ op ∈ (create_1x3_product_label mzero id ("q".toList) none ("d".toList)
          ("b".toList) ("c".toList) ("t".toList)).draws,
          ∀ d x y w h, op ≠ DrawOp.paste (Raster.barcodeImg d) x y w h)
      ∧ (create_1x3_product_label mzero id ("q".toList) none ("d".toList)
          ("b".toList) ("c".toList) ("t".toList)).draws.length
          = 2 + (wrap ("b".toList) 22).length + (wrap ("d".toList) 32).length
      ∧ ∀ op ∈ (create_1x3_product_label mzero id ("q".toList) none ("d".toList)
          ("b".toList) ("c".toList) ("t".toList)).draws,
          ∀ p : ℚ × ℚ, Rect.Mem p (DrawOp.box mzero op)
            → ¬ (Rect.Mem p barcodeBox1x3
              ∨ Rect.Mem p (barcodeTextBox1x3 mzero ("c".toList))))) :=
  ⟨by decide,
    no_barcode_frame_effect mzero id ("q".toList) ("d".toList) ("b".toList)
      ("c".toList) ("t".toList) (by decide)⟩

end LabelGen
